import Mathlib

/-!
Verification of the lightship state-machine and shutdown-coordination core,
modelled from src/src/factories/createLightship.ts (the TypeScript factory
whose line numbers the accompanying analysis refers to).

The factory closes over six pieces of mutable state:
blockingTasks, beacons, shutdownHandlers, serverIsReady, serverIsShuttingDown,
and the one-shot deferredFirstReady promise (represented by a latching flag).
Each exposed operation is embedded as a pure function on that record.
-/

namespace Lightship

/-- The mutable state closed over by the factory in createLightship.ts:
blockingTasks (line 63), beacons (line 76), shutdownHandlers (line 78),
serverIsReady and serverIsShuttingDown (lines 89-90), and the resolution
status of deferredFirstReady (lines 65-68; a JavaScript promise resolves at
most once, so a latching Boolean represents it). Tasks, beacons and handlers
are identified by natural numbers standing for JavaScript object identity. -/
structure LightshipState where
  blockingTasks : List Nat
  beacons : List Nat
  shutdownHandlers : List Nat
  serverIsReady : Bool
  serverIsShuttingDown : Bool
  firstReadyResolved : Bool
deriving DecidableEq, Repr

/-- The state right after construction (lines 63-90): empty collections,
serverIsReady and serverIsShuttingDown false, first-ready promise pending. -/
def initialState : LightshipState :=
  { blockingTasks := []
    beacons := []
    shutdownHandlers := []
    serverIsReady := false
    serverIsShuttingDown := false
    firstReadyResolved := false }

/-- isServerReady (lines 92-100): false while blockingTasks is non-empty,
otherwise the serverIsReady flag. -/
def isServerReady (s : LightshipState) : Bool :=
  if s.blockingTasks.length > 0 then false else s.serverIsReady

/-- isServerShuttingDown (lines 325-327): returns the serverIsShuttingDown flag. -/
def isServerShuttingDown (s : LightshipState) : Bool :=
  s.serverIsShuttingDown

/-- resolveFirstReady (lines 65-68): resolving the deferred promise; a second
call to a JavaScript promise resolver is a no-op, which the latching Boolean
captures. -/
def resolveFirstReady (s : LightshipState) : LightshipState :=
  { s with firstReadyResolved := true }

/-- signalNotReady (lines 155-163): warns when serverIsReady is already false,
then unconditionally assigns serverIsReady = false. Note that, unlike
signalReady, it performs no serverIsShuttingDown check. -/
def signalNotReady (s : LightshipState) : LightshipState :=
  { s with serverIsReady := false }

/-- The warning condition of signalNotReady (line 156): it logs the
already-not-ready warning exactly when serverIsReady === false. -/
def signalNotReadyWarns (s : LightshipState) : Bool :=
  s.serverIsReady == false

/-- signalReady (lines 165-183): returns early when shutting down; otherwise
sets serverIsReady = true and, when blockingTasks is empty, resolves the
first-ready promise. -/
def signalReady (s : LightshipState) : LightshipState :=
  if s.serverIsShuttingDown then s
  else if s.blockingTasks.length == 0 then
    resolveFirstReady { s with serverIsReady := true }
  else { s with serverIsReady := true }

/-- The synchronous prefix of shutdown (lines 185-196): the re-entrancy guard
followed by the assignments serverIsReady = nextReady and
serverIsShuttingDown = true. Everything after line 196 only awaits, logs,
arms timers and runs handlers; it does not write these fields again. -/
def shutdownSync (nextReady : Bool) (s : LightshipState) : LightshipState :=
  if s.serverIsShuttingDown then s
  else { s with serverIsReady := nextReady, serverIsShuttingDown := true }

/-- queueBlockingTask, registration part (line 329): pushes the task. -/
def queueBlockingTask (t : Nat) (s : LightshipState) : LightshipState :=
  { s with blockingTasks := s.blockingTasks ++ [t] }

/-- The fulfillment callback attached by queueBlockingTask (lines 331-339):
filters out every registration referentially equal to the settled task, then
resolves the first-ready promise when the remaining set is empty and
serverIsReady is true. -/
def blockingTaskFulfilled (t : Nat) (s : LightshipState) : LightshipState :=
  if (s.blockingTasks.filter (fun u => u != t)).length == 0 && s.serverIsReady then
    resolveFirstReady { s with blockingTasks := s.blockingTasks.filter (fun u => u != t) }
  else { s with blockingTasks := s.blockingTasks.filter (fun u => u != t) }

/-- What the source does when a queued blocking task rejects: nothing.
queueBlockingTask (lines 328-340) attaches only a fulfillment callback,
void blockingTask.then(() => ...), with no rejection handler and no catch,
so a rejection leaves the lightship state untouched: the registration stays
in blockingTasks and shutdown is not invoked. -/
def blockingTaskRejected (_t : Nat) (s : LightshipState) : LightshipState :=
  s

/-- createBeacon, registration part (lines 300-305): pushes a fresh beacon. -/
def createBeacon (b : Nat) (s : LightshipState) : LightshipState :=
  { s with beacons := s.beacons ++ [b] }

/-- JavaScript Array.prototype.indexOf: first index of the element, or -1. -/
def jsIndexOf (l : List Nat) (x : Nat) : Int :=
  match l.findIdx? (fun u => u == x) with
  | some i => (i : Int)
  | none => -1

/-- JavaScript Array.prototype.splice(start, 1): a negative start is clamped
to max(length + start, 0), a non-negative start to min(start, length); one
element at the resulting index is removed when it exists. -/
def jsSpliceOne (l : List Nat) (start : Int) : List Nat :=
  let actual : Nat :=
    if start < 0 then l.length - (-start).toNat else min start.toNat l.length
  l.take actual ++ l.drop (actual + 1)

/-- The die closure returned by createBeacon (lines 307-319):
beacons.splice(beacons.indexOf(beacon), 1). When the beacon is no longer in
the registry, indexOf yields -1 and splice(-1, 1) removes the last entry. -/
def beaconDie (b : Nat) (s : LightshipState) : LightshipState :=
  { s with beacons := jsSpliceOne s.beacons (jsIndexOf s.beacons b) }

/-- registerShutdownHandler (lines 341-343): appends the handler. -/
def registerShutdownHandler (h : Nat) (s : LightshipState) : LightshipState :=
  { s with shutdownHandlers := s.shutdownHandlers ++ [h] }

/-- The state-mutating events observable at the exposed API of the factory.
shutdownOp covers both the exposed shutdown() (lines 345-347) and the signal
bridge (lines 289-297); both call shutdown(false). taskFulfilled and
taskRejected are the two ways a queued promise can settle. -/
inductive LOp where
  | signalReadyOp
  | signalNotReadyOp
  | shutdownOp
  | queueTask (t : Nat)
  | taskFulfilled (t : Nat)
  | taskRejected (t : Nat)
  | createBeaconOp (b : Nat)
  | beaconDieOp (b : Nat)
  | registerHandlerOp (h : Nat)
deriving DecidableEq, Repr

/-- Interpretation of one event as the state transition of the source. -/
def applyOp (op : LOp) (s : LightshipState) : LightshipState :=
  match op with
  | .signalReadyOp => signalReady s
  | .signalNotReadyOp => signalNotReady s
  | .shutdownOp => shutdownSync false s
  | .queueTask t => queueBlockingTask t s
  | .taskFulfilled t => blockingTaskFulfilled t s
  | .taskRejected t => blockingTaskRejected t s
  | .createBeaconOp b => createBeacon b s
  | .beaconDieOp b => beaconDie b s
  | .registerHandlerOp h => registerShutdownHandler h s

/-- Running a sequence of events left to right. -/
def runOps (ops : List LOp) (s : LightshipState) : LightshipState :=
  match ops with
  | [] => s
  | op :: rest => runOps rest (applyOp op s)

/-- The asynchronous phases awaited by the body of shutdown after the
synchronous prefix (lines 199-284): the shutdownDelay pause, the beacon
drain, the handler loop, closing the server and arming the final watchdog. -/
inductive ShutdownPhase where
  | delayPhase
  | beaconDrainPhase
  | handlersPhase
  | closeServerPhase
  | finalWatchdogPhase
deriving DecidableEq, Repr

/-- A call to shutdown (lines 185-284): when the guard at line 186 fires, the
function returns at once having performed no phase; otherwise it sets the two
flags and proceeds through every phase in order. -/
def shutdownCall (s : LightshipState) : LightshipState × List ShutdownPhase :=
  if s.serverIsShuttingDown then (s, [])
  else
    (shutdownSync false s,
      [ShutdownPhase.delayPhase, ShutdownPhase.beaconDrainPhase,
        ShutdownPhase.handlersPhase, ShutdownPhase.closeServerPhase,
        ShutdownPhase.finalWatchdogPhase])

/-- A step of a run starts the shutdown sequence exactly when it flips
serverIsShuttingDown from false to true. -/
def startsShutdown (op : LOp) (s : LightshipState) : Bool :=
  !s.serverIsShuttingDown && (applyOp op s).serverIsShuttingDown

/-- Number of steps of a run that start the shutdown sequence. -/
def countStarts (ops : List LOp) (s : LightshipState) : Nat :=
  match ops with
  | [] => 0
  | op :: rest =>
    (if startsShutdown op s then 1 else 0) + countStarts rest (applyOp op s)

/-- Outcome of one shutdown handler: it either fulfills or rejects with an
error value (opaque, identified by a natural number). -/
inductive HandlerOutcome where
  | ok
  | err (e : Nat)
deriving DecidableEq, Repr

/-- Observable events of the handler loop at lines 257-267: a handler being
invoked (awaited), and the log.error emitted by the catch block. -/
inductive HandlerEvent where
  | invoked (id : Nat)
  | loggedError (id : Nat) (e : Nat)
deriving DecidableEq, Repr

/-- The handler loop (lines 259-267): for each registered handler in order,
await it; when it rejects, log the serialized error and continue with the
next handler. -/
def runShutdownHandlers (hs : List (Nat × HandlerOutcome)) : List HandlerEvent :=
  match hs with
  | [] => []
  | (id, HandlerOutcome.ok) :: rest =>
    HandlerEvent.invoked id :: runShutdownHandlers rest
  | (id, HandlerOutcome.err e) :: rest =>
    HandlerEvent.invoked id :: HandlerEvent.loggedError id e :: runShutdownHandlers rest

/-- The handlers a run of the loop invoked, in order. -/
def invokedIds (evs : List HandlerEvent) : List Nat :=
  match evs with
  | [] => []
  | HandlerEvent.invoked i :: rest => i :: invokedIds rest
  | HandlerEvent.loggedError _ _ :: rest => invokedIds rest

/-- The errors a run of the loop logged, in order. -/
def loggedErrors (evs : List HandlerEvent) : List (Nat × Nat) :=
  match evs with
  | [] => []
  | HandlerEvent.invoked _ :: rest => loggedErrors rest
  | HandlerEvent.loggedError i e :: rest => (i, e) :: loggedErrors rest

/-- The failing handlers of a registration list, with their errors, in order. -/
def failuresOf (hs : List (Nat × HandlerOutcome)) : List (Nat × Nat) :=
  match hs with
  | [] => []
  | (_, HandlerOutcome.ok) :: rest => failuresOf rest
  | (id, HandlerOutcome.err e) :: rest => (id, e) :: failuresOf rest

/-- A JavaScript timeout value: a finite number of milliseconds or
Number.POSITIVE_INFINITY. -/
inductive JsTimeout where
  | fin (n : Nat)
  | inf
deriving DecidableEq, Repr

/-- The JavaScript comparison a < b on such values: anything finite is
lesser than infinity, and infinity is lesser than nothing. -/
def jsLt (a b : JsTimeout) : Bool :=
  match a, b with
  | JsTimeout.fin x, JsTimeout.fin y => x < y
  | JsTimeout.fin _, JsTimeout.inf => true
  | JsTimeout.inf, _ => false

/-- The three duration options of the configuration relevant to the shutdown
sequence (lines 41-56 for the defaults). -/
structure ShutdownConfig where
  shutdownDelay : Nat
  gracefulShutdownTimeout : JsTimeout
  shutdownHandlerTimeout : JsTimeout
deriving DecidableEq, Repr

/-- The default values of those options (lines 43, 45, 46). -/
def defaultShutdownConfig : ShutdownConfig :=
  { shutdownDelay := 5000
    gracefulShutdownTimeout := JsTimeout.fin 60000
    shutdownHandlerTimeout := JsTimeout.fin 5000 }

/-- The construction-time validation at lines 85-87: the factory throws
exactly when gracefulShutdownTimeout < shutdownHandlerTimeout; this predicate
is true when construction succeeds. -/
def configurationValid (c : ShutdownConfig) : Bool :=
  !(jsLt c.gracefulShutdownTimeout c.shutdownHandlerTimeout)

/-- Lines 207-215: the graceful-shutdown timer is armed only when
gracefulShutdownTimeout !== Number.POSITIVE_INFINITY. -/
def gracefulTimerArmed (c : ShutdownConfig) : Bool :=
  c.gracefulShutdownTimeout != JsTimeout.inf

/-- Lines 247-255: the shutdown-handler timer is armed only when
shutdownHandlerTimeout !== Number.POSITIVE_INFINITY. -/
def handlerTimerArmed (c : ShutdownConfig) : Bool :=
  c.shutdownHandlerTimeout != JsTimeout.inf

/-- Whether the graceful-shutdown timer fires. It is armed (lines 207-215)
after the shutdownDelay pause and cleared (lines 241-243) when the beacon
drain completes, so it invokes terminate exactly when the drain, on its own,
takes longer than gracefulShutdownTimeout. The delay that preceded arming
and the handler phase that follows clearing are outside its window. -/
def terminatedDuringDrain (c : ShutdownConfig) (drainTime : Nat) : Bool :=
  match c.gracefulShutdownTimeout with
  | JsTimeout.inf => false
  | JsTimeout.fin g => g < drainTime

/-- Whether the shutdown-handler timer fires: it is armed (lines 247-255)
after the drain and cleared (lines 269-271) after the handler loop, so it
invokes terminate exactly when the handler loop takes longer than
shutdownHandlerTimeout. -/
def terminatedDuringHandlers (c : ShutdownConfig) (handlerTime : Nat) : Bool :=
  match c.shutdownHandlerTimeout with
  | JsTimeout.inf => false
  | JsTimeout.fin h => h < handlerTime

/-- How a triggered shutdown sequence ends, as a function of the time the
beacon drain takes and the total time the handler loop takes. -/
inductive ShutdownOutcome where
  | forcedDuringDrain
  | forcedDuringHandlers
  | completed
deriving DecidableEq, Repr

/-- Composition of the two guarded phases in source order: the drain guard
can fire first; only when it does not, the handler phase runs under its own
guard; when neither fires, the sequence completes without terminate. -/
def shutdownOutcome (c : ShutdownConfig) (drainTime handlerTime : Nat) : ShutdownOutcome :=
  if terminatedDuringDrain c drainTime then ShutdownOutcome.forcedDuringDrain
  else if terminatedDuringHandlers c handlerTime then ShutdownOutcome.forcedDuringHandlers
  else ShutdownOutcome.completed

/-- Wall-clock time from the shutdown trigger to the completion of the
handler loop, for a sequence that was not forcibly terminated: the delay, the
drain and the handler loop run strictly one after the other. -/
def completionTime (c : ShutdownConfig) (drainTime handlerTime : Nat) : Nat :=
  c.shutdownDelay + drainTime + handlerTime

/-! ## Basic run lemmas -/

theorem runOps_append (l1 l2 : List LOp) (s : LightshipState) :
    runOps (l1 ++ l2) s = runOps l2 (runOps l1 s) := by
  induction l1 generalizing s with
  | nil => rfl
  | cons op rest ih =>
    simp only [List.cons_append, runOps]
    exact ih (applyOp op s)

theorem applyOp_shuttingDown_mono (op : LOp) (s : LightshipState)
    (h : s.serverIsShuttingDown = true) :
    (applyOp op s).serverIsShuttingDown = true := by
  cases op <;>
    simp only [applyOp, signalReady, signalNotReady, shutdownSync, queueBlockingTask,
      blockingTaskFulfilled, blockingTaskRejected, createBeacon, beaconDie,
      registerShutdownHandler, resolveFirstReady] <;>
    (try split_ifs) <;> simp_all

theorem runOps_shuttingDown_mono (ops : List LOp) (s : LightshipState)
    (h : s.serverIsShuttingDown = true) :
    (runOps ops s).serverIsShuttingDown = true := by
  induction ops generalizing s with
  | nil => exact h
  | cons op rest ih => exact ih (applyOp op s) (applyOp_shuttingDown_mono op s h)

theorem countStarts_eq_zero_of_shuttingDown (ops : List LOp) (s : LightshipState)
    (h : s.serverIsShuttingDown = true) :
    countStarts ops s = 0 := by
  induction ops generalizing s with
  | nil => rfl
  | cons op rest ih =>
    have h2 := applyOp_shuttingDown_mono op s h
    simp [countStarts, startsShutdown, h, ih (applyOp op s) h2]

theorem countStarts_le_one (ops : List LOp) (s : LightshipState) :
    countStarts ops s ≤ 1 := by
  induction ops generalizing s with
  | nil => exact Nat.zero_le 1
  | cons op rest ih =>
    by_cases h : startsShutdown op s = true
    · have h2 : (applyOp op s).serverIsShuttingDown = true :=
        (Bool.and_eq_true _ _ |>.mp h).2
      simp [countStarts, h, countStarts_eq_zero_of_shuttingDown rest (applyOp op s) h2]
    · simpa [countStarts, h] using ih (applyOp op s)

theorem applyOp_resolved_mono (op : LOp) (s : LightshipState)
    (h : s.firstReadyResolved = true) :
    (applyOp op s).firstReadyResolved = true := by
  cases op <;>
    simp only [applyOp, signalReady, signalNotReady, shutdownSync, queueBlockingTask,
      blockingTaskFulfilled, blockingTaskRejected, createBeacon, beaconDie,
      registerShutdownHandler, resolveFirstReady] <;>
    (try split_ifs) <;> simp_all

theorem runOps_resolved_mono (ops : List LOp) (s : LightshipState)
    (h : s.firstReadyResolved = true) :
    (runOps ops s).firstReadyResolved = true := by
  induction ops generalizing s with
  | nil => exact h
  | cons op rest ih => exact ih (applyOp op s) (applyOp_resolved_mono op s h)

/-! ## Claim theorems: shutdown guard and handler loop -/

/-- C4: once serverIsShuttingDown has become true it never returns to false
along any sequence of exposed operations; a further shutdown trigger on a
shutting-down state is a no-op returning the state unchanged (the source
additionally logs a warning there, line 187); and along any run the shutdown
sequence is started at most once, so the registered handlers are run during
at most one shutdown sequence per process lifetime. -/
theorem c4_shutdown_irreversible_and_reentry_noop (ops : List LOp) (s : LightshipState) :
    (s.serverIsShuttingDown = true →
      (runOps ops s).serverIsShuttingDown = true ∧ shutdownSync false s = s)
    ∧ countStarts ops s ≤ 1 := by
  refine ⟨fun h => ⟨runOps_shuttingDown_mono ops s h, ?_⟩, countStarts_le_one ops s⟩
  simp [shutdownSync, h]

/-- Witness for C4 at a concrete shutting-down state and a concrete trace. -/
theorem c4_shutdown_irreversible_witness :
    (runOps [LOp.signalReadyOp, LOp.shutdownOp]
        (shutdownSync false initialState)).serverIsShuttingDown = true
      ∧ shutdownSync false (shutdownSync false initialState)
          = shutdownSync false initialState := by
  have h := c4_shutdown_irreversible_and_reentry_noop
    [LOp.signalReadyOp, LOp.shutdownOp] (shutdownSync false initialState)
  exact h.1 rfl

/-- C9: a call to shutdown while a shutdown sequence is already in progress
hits the guard at line 186 and returns at once: the state is unchanged and
none of the phases (delay, beacon drain, handlers, close, watchdog) is
performed, so awaiting the returned promise does not imply shutdown has
finished. -/
theorem c9_reentrant_shutdown_returns_immediately (s : LightshipState)
    (h : s.serverIsShuttingDown = true) :
    shutdownCall s = (s, []) := by
  simp [shutdownCall, h]

/-- Witness for C9 at a concrete shutting-down state. -/
theorem c9_reentrant_shutdown_witness :
    shutdownCall (shutdownSync false initialState) = (shutdownSync false initialState, []) :=
  c9_reentrant_shutdown_returns_immediately (shutdownSync false initialState) rfl

/-- C5: the handler loop invokes every registered handler exactly once, in
strict registration order, sequentially (the event list is produced in
order); a rejecting handler has its error caught and logged and does not
stop the loop: the invoked handlers are exactly the registered ones whatever
the outcomes, and the logged errors are exactly the failures, in order. -/
theorem c5_handlers_in_order_errors_logged (hs : List (Nat × HandlerOutcome)) :
    invokedIds (runShutdownHandlers hs) = hs.map Prod.fst
      ∧ loggedErrors (runShutdownHandlers hs) = failuresOf hs := by
  induction hs with
  | nil => exact ⟨rfl, rfl⟩
  | cons p rest ih =>
    obtain ⟨id, out⟩ := p
    cases out <;>
      simp [runShutdownHandlers, invokedIds, loggedErrors, failuresOf, ih.1, ih.2]

/-- C10: with gracefulShutdownTimeout = Infinity the graceful timer is never
armed (guard at line 207) and that phase never invokes terminate; with
shutdownHandlerTimeout = Infinity the handler timer is never armed (guard at
line 247) and that phase never invokes terminate; and a configuration whose
gracefulShutdownTimeout is Infinity passes the validation at lines 85-87
whatever the shutdownHandlerTimeout, since Infinity < x is false for every x. -/
theorem c10_infinite_timeouts_never_terminate (d : Nat) (x : JsTimeout) (drain ht : Nat) :
    gracefulTimerArmed ⟨d, JsTimeout.inf, x⟩ = false
      ∧ terminatedDuringDrain ⟨d, JsTimeout.inf, x⟩ drain = false
      ∧ handlerTimerArmed ⟨d, x, JsTimeout.inf⟩ = false
      ∧ terminatedDuringHandlers ⟨d, x, JsTimeout.inf⟩ ht = false
      ∧ configurationValid ⟨d, JsTimeout.inf, x⟩ = true := by
  refine ⟨rfl, rfl, rfl, rfl, ?_⟩
  simp [configurationValid, jsLt]

/-! ## Claim theorems: code divergences -/

/-- C1: evaluation of the code at the failing input. The trace queues task 1,
signals ready, then task 1 rejects. Because queueBlockingTask attaches only a
fulfillment callback (void blockingTask.then(...), lines 331-339, with no
second argument and no catch), the rejection changes nothing: the task is
still registered and isServerShuttingDown is still false, where the claim,
the spec and the test of the repository itself (test/lightship/factories/
createLightship.ts, test named: errors produced by blocking tasks causes a
service shutdown) require the task to be removed and the shutdown
coordinator to be invoked with nextReady=false. -/
theorem c1_rejected_task_is_ignored_by_code :
    isServerShuttingDown
        (runOps [LOp.queueTask 1, LOp.signalReadyOp, LOp.taskRejected 1] initialState) = false
      ∧ (runOps [LOp.queueTask 1, LOp.signalReadyOp, LOp.taskRejected 1]
          initialState).blockingTasks = [1]
      ∧ isServerReady
          (runOps [LOp.queueTask 1, LOp.signalReadyOp, LOp.taskRejected 1] initialState)
            = false := by
  exact ⟨rfl, rfl, rfl⟩

/-- C2: evaluation of the code at the failing input. Beacons 1 and 2 are
created, then die is called twice on beacon 1. The first die removes
beacon 1. The second die computes beacons.indexOf(beacon) = -1 and
beacons.splice(-1, 1) removes the last entry of the registry, deleting
beacon 2 even though beacon 2 never died: double-die is not an idempotent
no-op and does remove the entry of a different beacon. -/
theorem c2_double_die_removes_other_beacon :
    (beaconDie 1 (createBeacon 2 (createBeacon 1 initialState))).beacons = [2]
      ∧ (beaconDie 1 (beaconDie 1 (createBeacon 2 (createBeacon 1 initialState)))).beacons
          = ([] : List Nat) := by
  exact ⟨rfl, rfl⟩

/-! ## Blocking-task bookkeeping -/

theorem blockingTaskFulfilled_blockingTasks (t : Nat) (s : LightshipState) :
    (blockingTaskFulfilled t s).blockingTasks
      = s.blockingTasks.filter (fun u => u != t) := by
  unfold blockingTaskFulfilled
  split <;> rfl

/-- C8: there is no bound on the number of queued blocking tasks and a
duplicate registration of the same promise is tracked on its own: queueing
always grows the multiset by one even when the task is already present;
isServerReady is false while any registration is outstanding; and the
settlement of one promise removes exactly the registrations of that promise,
leaving the multiplicity of every other registration unchanged. -/
theorem c8_blocking_tasks_unbounded_and_independent (s : LightshipState) (t u : Nat) :
    (queueBlockingTask t s).blockingTasks.length = s.blockingTasks.length + 1
      ∧ (0 < s.blockingTasks.length → isServerReady s = false)
      ∧ (u ≠ t →
          (blockingTaskFulfilled t s).blockingTasks.count u = s.blockingTasks.count u)
      ∧ (blockingTaskFulfilled t s).blockingTasks.count t = 0 := by
  refine ⟨?_, ?_, ?_, ?_⟩
  · simp [queueBlockingTask]
  · intro h
    simp [isServerReady, h]
  · intro hne
    rw [blockingTaskFulfilled_blockingTasks]
    exact List.count_filter (by simp [hne])
  · rw [blockingTaskFulfilled_blockingTasks, List.count_eq_zero]
    intro hmem
    have hp := (List.mem_filter.mp hmem).2
    simp at hp

/-- Witness for C8: two distinct tasks and one duplicate are queued; the
duplicate grows the multiset, readiness is blocked, and fulfilling task 1
removes both of its registrations and neither registration of task 2. -/
theorem c8_blocking_tasks_witness :
    (queueBlockingTask 1 (queueBlockingTask 2 (queueBlockingTask 1 initialState))).blockingTasks.length
        = (queueBlockingTask 2 (queueBlockingTask 1 initialState)).blockingTasks.length + 1
      ∧ isServerReady (queueBlockingTask 2 (queueBlockingTask 1 initialState)) = false
      ∧ (blockingTaskFulfilled 1
            (queueBlockingTask 2 (queueBlockingTask 1 initialState))).blockingTasks.count 2
          = (queueBlockingTask 2 (queueBlockingTask 1 initialState)).blockingTasks.count 2
      ∧ (blockingTaskFulfilled 1
            (queueBlockingTask 2 (queueBlockingTask 1 initialState))).blockingTasks.count 1
          = 0 := by
  have h := c8_blocking_tasks_unbounded_and_independent
    (queueBlockingTask 2 (queueBlockingTask 1 initialState)) 1 2
  exact ⟨h.1, h.2.1 (by decide), h.2.2.1 (by decide), h.2.2.2⟩

/-! ## Readiness during shutdown -/

theorem applyOp_shutdown_implies_not_ready (op : LOp) (s : LightshipState)
    (h : s.serverIsShuttingDown = true → s.serverIsReady = false) :
    (applyOp op s).serverIsShuttingDown = true → (applyOp op s).serverIsReady = false := by
  cases op <;>
    simp only [applyOp, signalReady, signalNotReady, shutdownSync, queueBlockingTask,
      blockingTaskFulfilled, blockingTaskRejected, createBeacon, beaconDie,
      registerShutdownHandler, resolveFirstReady] <;>
    (try split_ifs) <;> simp_all

theorem runOps_shutdown_implies_not_ready (ops : List LOp)
    (h : (runOps ops initialState).serverIsShuttingDown = true) :
    (runOps ops initialState).serverIsReady = false := by
  have main : ∀ (l : List LOp) (s : LightshipState),
      (s.serverIsShuttingDown = true → s.serverIsReady = false) →
      ((runOps l s).serverIsShuttingDown = true → (runOps l s).serverIsReady = false) := by
    intro l
    induction l with
    | nil => exact fun s hs => hs
    | cons op rest ih =>
      exact fun s hs => ih (applyOp op s) (applyOp_shutdown_implies_not_ready op s hs)
  exact main ops initialState (by decide) h

/-- C7: in every state reachable through the exposed operations in which
serverIsShuttingDown is true, calling signalNotReady leaves the serverIsReady
flag unchanged and logs its warning. The mechanism differs from signalReady:
signalNotReady (lines 155-163) has no serverIsShuttingDown guard and always
assigns serverIsReady = false, but in every reachable shutting-down state
serverIsReady is already false (shutdown set it to false and signalReady is
guarded), so the assignment changes nothing and the already-not-ready
warning at line 156 fires. -/
theorem c7_signalNotReady_noop_during_shutdown (ops : List LOp)
    (h : (runOps ops initialState).serverIsShuttingDown = true) :
    (signalNotReady (runOps ops initialState)).serverIsReady
        = (runOps ops initialState).serverIsReady
      ∧ signalNotReadyWarns (runOps ops initialState) = true := by
  have hr := runOps_shutdown_implies_not_ready ops h
  exact ⟨by simp [signalNotReady, hr], by simp [signalNotReadyWarns, hr]⟩

/-- Witness for C7: the server signals ready, then shuts down; the subsequent
signalNotReady call leaves the flag unchanged and warns. -/
theorem c7_signalNotReady_witness :
    (signalNotReady (runOps [LOp.signalReadyOp, LOp.shutdownOp] initialState)).serverIsReady
        = (runOps [LOp.signalReadyOp, LOp.shutdownOp] initialState).serverIsReady
      ∧ signalNotReadyWarns (runOps [LOp.signalReadyOp, LOp.shutdownOp] initialState) = true :=
  c7_signalNotReady_noop_during_shutdown [LOp.signalReadyOp, LOp.shutdownOp] rfl

/-! ## The graceful-shutdown budget -/

/-- C3 counterexample: with the default configuration (shutdownDelay 5000,
gracefulShutdownTimeout 60000, shutdownHandlerTimeout 5000), a beacon drain
of 58000 ms followed by 4000 ms of handler execution completes without any
forced termination, yet the total time from the trigger is
5000 + 58000 + 4000 = 67000 ms, which exceeds gracefulShutdownTimeout: the
sequence was not complete 60000 ms after the trigger and the terminate
callback was nonetheless never invoked, refuting the claimed ceiling. -/
theorem c3_total_time_counterexample :
    shutdownOutcome defaultShutdownConfig 58000 4000 = ShutdownOutcome.completed
      ∧ completionTime defaultShutdownConfig 58000 4000 = 67000
      ∧ defaultShutdownConfig.gracefulShutdownTimeout = JsTimeout.fin 60000
      ∧ 60000 < 67000 := by
  exact ⟨rfl, rfl, rfl, by decide⟩

/-- C3 amended: the graceful timer is armed only after the shutdownDelay
pause and guards only the beacon-drain phase, and handler execution is
guarded separately by shutdownHandlerTimeout; hence a sequence that escapes
forced termination takes at most
shutdownDelay + gracefulShutdownTimeout + shutdownHandlerTimeout from the
trigger, and a beacon drain alone exceeding gracefulShutdownTimeout does
force termination. -/
theorem c3_amended_phase_bounds (d g h drain ht : Nat) :
    (shutdownOutcome ⟨d, JsTimeout.fin g, JsTimeout.fin h⟩ drain ht
          = ShutdownOutcome.completed →
        completionTime ⟨d, JsTimeout.fin g, JsTimeout.fin h⟩ drain ht ≤ d + g + h)
      ∧ (g < drain →
        shutdownOutcome ⟨d, JsTimeout.fin g, JsTimeout.fin h⟩ drain ht
          = ShutdownOutcome.forcedDuringDrain) := by
  constructor
  · intro hc
    by_cases h1 : g < drain
    · simp [shutdownOutcome, terminatedDuringDrain, h1] at hc
    · by_cases h2 : h < ht
      · simp [shutdownOutcome, terminatedDuringDrain, terminatedDuringHandlers, h1, h2] at hc
      · show d + drain + ht ≤ d + g + h
        omega
  · intro hg
    simp [shutdownOutcome, terminatedDuringDrain, hg]

/-- Witness for C3 amended at concrete inputs: a completed sequence within
the composite bound, and a drain of 70000 ms being forcibly terminated. -/
theorem c3_amended_phase_bounds_witness :
    completionTime ⟨5000, JsTimeout.fin 60000, JsTimeout.fin 5000⟩ 58000 4000
        ≤ 5000 + 60000 + 5000
      ∧ shutdownOutcome ⟨5000, JsTimeout.fin 60000, JsTimeout.fin 5000⟩ 70000 0
          = ShutdownOutcome.forcedDuringDrain := by
  have h1 := c3_amended_phase_bounds 5000 60000 5000 58000 4000
  have h2 := c3_amended_phase_bounds 5000 60000 5000 70000 0
  exact ⟨h1.1 (by decide), h2.2 (by decide)⟩

/-! ## The first-ready signal -/

theorem isServerReady_eq_true_iff (s : LightshipState) :
    isServerReady s = true ↔ s.blockingTasks.length = 0 ∧ s.serverIsReady = true := by
  unfold isServerReady
  by_cases hc : s.blockingTasks.length > 0
  · rw [if_pos hc]
    constructor
    · intro hf; cases hf
    · rintro ⟨h0, _⟩; omega
  · rw [if_neg hc]
    constructor
    · intro hr; exact ⟨by omega, hr⟩
    · rintro ⟨_, hr⟩; exact hr

theorem applyOp_effective_ready_resolved (op : LOp) (s : LightshipState)
    (h : s.blockingTasks.length = 0 ∧ s.serverIsReady = true → s.firstReadyResolved = true) :
    (applyOp op s).blockingTasks.length = 0 ∧ (applyOp op s).serverIsReady = true →
      (applyOp op s).firstReadyResolved = true := by
  cases op <;>
    simp only [applyOp, signalReady, signalNotReady, shutdownSync, queueBlockingTask,
      blockingTaskFulfilled, blockingTaskRejected, createBeacon, beaconDie,
      registerShutdownHandler, resolveFirstReady] <;>
    (try split_ifs) <;> simp_all

theorem applyOp_resolves_only_when_ready (op : LOp) (s : LightshipState)
    (h0 : s.firstReadyResolved = false)
    (h1 : (applyOp op s).firstReadyResolved = true) :
    (applyOp op s).blockingTasks.length = 0 ∧ (applyOp op s).serverIsReady = true := by
  cases op <;>
    simp only [applyOp, signalReady, signalNotReady, shutdownSync, queueBlockingTask,
      blockingTaskFulfilled, blockingTaskRejected, createBeacon, beaconDie,
      registerShutdownHandler, resolveFirstReady] at h1 ⊢ <;>
    (try split_ifs at h1 ⊢) <;> (simp_all; try tauto)

theorem effective_ready_implies_resolved (ops : List LOp)
    (h : (runOps ops initialState).blockingTasks.length = 0
      ∧ (runOps ops initialState).serverIsReady = true) :
    (runOps ops initialState).firstReadyResolved = true := by
  have main : ∀ (l : List LOp) (s : LightshipState),
      (s.blockingTasks.length = 0 ∧ s.serverIsReady = true → s.firstReadyResolved = true) →
      ((runOps l s).blockingTasks.length = 0 ∧ (runOps l s).serverIsReady = true →
        (runOps l s).firstReadyResolved = true) := by
    intro l
    induction l with
    | nil => exact fun s hs => hs
    | cons op rest ih =>
      exact fun s hs => ih (applyOp op s) (applyOp_effective_ready_resolved op s hs)
  exact main ops initialState (by decide) h

/-- C6: along every sequence of exposed operations, the first-ready promise
is resolved at the end of the run exactly when some prefix of the run
reached a state with isServerReady true, that is, with the ready flag set
and the blocking-task set simultaneously empty. The forward direction says
the promise never resolves earlier than the first such moment; the backward
direction says it is resolved at that first moment and, the flag being a
latch like a JavaScript promise, stays resolved, so every waiter of the one
shared promise observes that single transition and later resolution attempts
are no-ops. -/
theorem c6_first_ready_resolved_iff_effective_ready (ops : List LOp) :
    (runOps ops initialState).firstReadyResolved = true ↔
      ∃ n, isServerReady (runOps (ops.take n) initialState) = true := by
  induction ops using List.reverseRecOn with
  | nil =>
    constructor
    · intro h; exact absurd h (by decide)
    · rintro ⟨n, hn⟩
      rw [List.take_nil] at hn
      exact absurd hn (by decide)
  | append_singleton l op ih =>
    have hsplit : runOps (l ++ [op]) initialState = applyOp op (runOps l initialState) := by
      rw [runOps_append]; rfl
    constructor
    · intro hres
      rw [hsplit] at hres
      by_cases hre : (runOps l initialState).firstReadyResolved = true
      · obtain ⟨n, hn⟩ := ih.mp hre
        by_cases hle : n ≤ l.length
        · exact ⟨n, by rw [List.take_append_of_le_length hle]; exact hn⟩
        · refine ⟨l.length, ?_⟩
          rw [List.take_append_of_le_length (le_refl _), List.take_length]
          rw [List.take_of_length_le (by omega)] at hn
          exact hn
      · have hfalse : (runOps l initialState).firstReadyResolved = false := by
          cases hx : (runOps l initialState).firstReadyResolved
          · rfl
          · exact absurd hx hre
        have heff := applyOp_resolves_only_when_ready op (runOps l initialState) hfalse hres
        refine ⟨l.length + 1, ?_⟩
        rw [List.take_of_length_le (by simp), hsplit, isServerReady_eq_true_iff]
        exact heff
    · rintro ⟨n, hn⟩
      rw [hsplit]
      by_cases hle : n ≤ l.length
      · rw [List.take_append_of_le_length hle] at hn
        exact applyOp_resolved_mono op _ (ih.mpr ⟨n, hn⟩)
      · rw [List.take_of_length_le
          (by simp only [List.length_append, List.length_singleton]; omega)] at hn
        have hres := effective_ready_implies_resolved (l ++ [op])
          ((isServerReady_eq_true_iff _).mp hn)
        rw [hsplit] at hres
        exact hres

end Lightship
